import Mathlib

/-!
Shallow embedding of `imgcreate/fs.py` (livecd-tools): disk / mount / snapshot
resource lifecycle and the image-minimization routine.

External tools are modelled by a `World` oracle giving each command an exit
status and a captured stdout.  The local filesystem visible to the Python code
(`os.stat`, sparse-file expand/truncate, directory creation) is a `Sys` record
threaded through each operation.  Python exceptions are `Except Err`; every
operation additionally returns the ordered list of external commands it
invoked (plus expand/truncate file events), so that claims about "which tool
was run when" are statable.
-/

namespace Imgcreate

/-- External commands and observable file events, in invocation order. -/
inductive Cmd where
  | mountBind (src dest : String)
  | mountDev (device mountdir : String) (fstype : Option String)
  | umount (path : String)
  | losetupFind
  | losetupBind (device file : String)
  | losetupDetach (device : String)
  | mkfsCmd (fstype fslabel : String) (blocksize : Int) (device : String)
  | tune2fsCmd (device : String)
  | e2fsckCmd (fs : String)
  | e2imageCmd (fs saved : String)
  | resizeCmd (fs : String) (arg : String)
  | dumpe2fsCmd (file : String)
  | dmsetupCreate (name table : String)
  | dmsetupRemove (name : String)
  | dmsetupStatus (name : String)
  | squashfsCmd (inImg outImg : String) (noProgress : Bool)
  | evtExpand (file : String) (offset : Int)
  | evtTruncate (file : String) (size : Int)
deriving Repr, DecidableEq

abbrev Trace := List Cmd

/-- Python exception classes raised by `fs.py` (`imgcreate.errors` plus builtins). -/
inductive Err where
  | mountError (msg : String)
  | squashfsError (msg : String)
  | snapshotError (msg : String)
  | creatorError (msg : String)
  | runtimeError (msg : String)
  | osError (msg : String)
  | indexError
  | keyError (msg : String)
  | valueError (msg : String)
  | typeError (msg : String)
deriving Repr, DecidableEq

/-- Oracle for the environment: exit status and stdout of each external
command, tty-ness of stdout, process id and the `random.randint` draw used
for snapshot names, and the `tempfile.mkstemp` path used by `resize2fs`. -/
structure World where
  exitCode : Cmd → Int
  output : Cmd → String
  isatty : Bool
  pid : Nat
  randVal : Nat
  tempName : String

/-- The filesystem state the Python code reads and writes directly:
regular-file byte lengths (`os.stat` / `os.ftruncate` / writes) and
directory existence (`os.path.isdir` / `os.makedirs` / `os.rmdir`). -/
structure Sys where
  files : String → Option Int
  dirs : String → Bool

def setFile (s : Sys) (f : String) (v : Int) : Sys :=
  { s with files := fun x => if x = f then some v else s.files x }

def delFile (s : Sys) (f : String) : Sys :=
  { s with files := fun x => if x = f then none else s.files x }

def setDir (s : Sys) (d : String) (b : Bool) : Sys :=
  { s with dirs := fun x => if x = d then b else s.dirs x }

/-- Python `str(x)` on an optional string (`None` prints as "None"). -/
def optStr : Option String → String
  | some s => s
  | none => "None"

instance {ε α : Type} [DecidableEq ε] [DecidableEq α] : DecidableEq (Except ε α)
  | .ok a, .ok b =>
    match decEq a b with
    | isTrue h => isTrue (by rw [h])
    | isFalse h => isFalse (by intro hh; injection hh with h2; exact h h2)
  | .ok _, .error _ => isFalse (fun hh => Except.noConfusion hh)
  | .error _, .ok _ => isFalse (fun hh => Except.noConfusion hh)
  | .error e, .error f =>
    match decEq e f with
    | isTrue h => isTrue (by rw [h])
    | isFalse h => isFalse (by intro hh; injection hh with h2; exact h h2)

/-- Splitter over a character list: cut at every separator position.
(Structural recursion, so proofs can evaluate it.) -/
def splitPredAux (p : Char → Bool) : List Char → List Char → List String
  | [], acc => [String.mk acc.reverse]
  | c :: cs, acc =>
    if p c then String.mk acc.reverse :: splitPredAux p cs []
    else splitPredAux p cs (c :: acc)

def pyWhitespace (c : Char) : Bool :=
  c = ' ' || c = '\n' || c = '\t' || c = '\r'

/-- Python `str.split()` with no argument: split on whitespace runs
(empty pieces dropped). -/
def pySplit (s : String) : List String :=
  (splitPredAux pyWhitespace s.data []).filter (fun t => t ≠ "")

/-- Python `str.split(sep)` for a single-character separator. -/
def pySplitChar (sep : Char) (s : String) : List String :=
  splitPredAux (fun c => c = sep) s.data []

/-- `token.split(sep)[0]`: the characters before the first separator. -/
def firstField (sep : Char) (s : String) : String :=
  ((pySplitChar sep s).headD "")

/-- Python `str.strip()` restricted to whitespace. -/
def pyTrim (s : String) : String :=
  String.mk (((s.data.dropWhile pyWhitespace).reverse.dropWhile pyWhitespace).reverse)

def digitsToNatAux : List Char → Nat → Option Nat
  | [], acc => some acc
  | c :: cs, acc =>
    if c.isDigit then digitsToNatAux cs (acc * 10 + (c.toNat - 48)) else none

/-- Python `int(s)` on the token shapes occurring here: an optional leading
minus followed by one or more digits; anything else is a `ValueError`. -/
def pyInt (s : String) : Option Int :=
  match s.data with
  | [] => none
  | '-' :: rest =>
    match rest with
    | [] => none
    | _ => (digitsToNatAux rest 0).map (fun n => -(n : Int))
  | l => (digitsToNatAux l 0).map (fun n => (n : Int))

/-- `os.path.dirname`: all components before the final slash. -/
def dirname (p : String) : String :=
  String.intercalate "/" (pySplitChar '/' p).dropLast

/-- `os.path.join` for the one shape used here. -/
def joinPath (d f : String) : String :=
  if d = "" then f else d ++ "/" ++ f

/-- The `"%sK"` size argument passed to the resize tool (Python 2 integer
division of a byte count by 1024). -/
def sizeK (sz : Int) : String := toString (Int.ediv sz 1024) ++ "K"

/-! ## Module-level tool wrappers -/

/-- `mksquashfs(in_img, out_img)`. -/
def mksquashfs (w : World) (in_img out_img : String) : Except Err Unit × Trace :=
  let c := Cmd.squashfsCmd in_img out_img (!w.isatty)
  if w.exitCode c ≠ 0 then
    (.error (.squashfsError ("mksquashfs exited with error (" ++ toString (w.exitCode c) ++ ")")),
     [c])
  else (.ok (), [c])

/-- `e2fsck(fs)`: returns the status code of the check. -/
def e2fsck (w : World) (fs : String) : Int × Trace :=
  (w.exitCode (Cmd.e2fsckCmd fs), [Cmd.e2fsckCmd fs])

/-- `resize2fs(fs, size, minimal)`.  Guards the size/minimal arguments, runs a
check, saves a scratch image, runs the resize tool (its nonzero status is
returned, not raised), re-checks after a successful resize, and deletes the
scratch image only on full success. -/
def resize2fs (w : World) (s : Sys) (fs : String) (size : Option Int) (minimal : Bool) :
    Except Err Int × Sys × Trace :=
  if minimal && size.isSome then
    (.error (.runtimeError "Cant specify both minimal and a size for resize!"), s, [])
  else if !minimal && size.isNone then
    (.error (.runtimeError "Must specify either a size or minimal for resize!"), s, [])
  else
    let (_rc1, t1) := e2fsck w fs
    let saved := w.tempName
    let s1 := setFile s saved 0
    let t2 := t1 ++ [Cmd.e2imageCmd fs saved]
    let arg := if minimal then "-M" else sizeK (size.getD 0)
    let c := Cmd.resizeCmd fs arg
    let ret := w.exitCode c
    let t3 := t2 ++ [c]
    if ret ≠ 0 then (.ok ret, s1, t3)
    else
      let (rc2, t4) := e2fsck w fs
      if rc2 ≠ 0 then
        (.error (.creatorError ("fsck after resize returned an error!  image to debug at " ++ saved)),
         s1, t3 ++ t4)
      else (.ok 0, delFile s1 saved, t3 ++ t4)

/-! ## Disk hierarchy

`RawDisk` / `LoopbackDisk` / `SparseLoopbackDisk` share one record; the
`sparse` flag selects which `create` the object has (plain loopback binding
versus expand-then-bind), and `fixedDev` models `fixed()`. -/

structure Disk where
  lofile : String
  declSize : Option Int
  device : Option String
  sparse : Bool
  fixedDev : Bool
deriving Repr, DecidableEq

def Disk.existsb (s : Sys) (d : Disk) : Bool :=
  (s.files d.lofile).isSome

/-- `SparseLoopbackDisk.expand(create, size)`: optionally create parents and
the file itself, then write one byte at the target offset (so the file length
becomes `size + 1` when it was shorter). -/
def Disk.expand (s : Sys) (d : Disk) (create : Bool) (szArg : Option Int) :
    Except Err Unit × Sys × Trace :=
  let s1 := if create then setDir s (dirname d.lofile) true else s
  let sz? := match szArg with
    | some z => some z
    | none => d.declSize
  match sz? with
  | none => (.error (.typeError "an integer is required"), s1, [])
  | some sz =>
    match s1.files d.lofile with
    | none =>
      if create then
        if sz < 0 then (.error (.osError "Invalid argument"), setFile s1 d.lofile 0, [])
        else (.ok (), setFile s1 d.lofile (sz + 1), [Cmd.evtExpand d.lofile sz])
      else (.error (.osError "No such file or directory"), s1, [])
    | some old =>
      if sz < 0 then (.error (.osError "Invalid argument"), s1, [])
      else (.ok (), setFile s1 d.lofile (max old (sz + 1)), [Cmd.evtExpand d.lofile sz])

/-- `SparseLoopbackDisk.truncate(size)`: shrink the backing file to exactly
`size` bytes (default: the declared size). -/
def Disk.truncate (s : Sys) (d : Disk) (szArg : Option Int) :
    Except Err Unit × Sys × Trace :=
  let sz? := match szArg with
    | some z => some z
    | none => d.declSize
  match sz? with
  | none => (.error (.typeError "an integer is required"), s, [])
  | some sz =>
    match s.files d.lofile with
    | none => (.error (.osError "No such file or directory"), s, [])
    | some _ =>
      if sz < 0 then (.error (.osError "Invalid argument"), s, [])
      else (.ok (), setFile s d.lofile sz, [Cmd.evtTruncate d.lofile sz])

/-- `LoopbackDisk.create`: no-op when already bound, else allocate a free loop
device and bind the backing file to it. -/
def Disk.loopCreate (w : World) (d : Disk) : Except Err Unit × Disk × Trace :=
  if d.device.isSome then (.ok (), d, [])
  else
    let t1 : Trace := [Cmd.losetupFind]
    if w.exitCode Cmd.losetupFind ≠ 0 then
      (.error (.mountError ("Failed to allocate loop device for " ++ d.lofile)), d, t1)
    else
      match pySplit (w.output Cmd.losetupFind) with
      | [] => (.error .indexError, d, t1)
      | dev :: _ =>
        let c := Cmd.losetupBind dev d.lofile
        if w.exitCode c ≠ 0 then
          (.error (.mountError ("Failed to allocate loop device for " ++ d.lofile)), d, t1 ++ [c])
        else (.ok (), { d with device := some dev }, t1 ++ [c])

/-- `create()` as dispatched on the object's class: sparse disks first expand
the backing file to the declared size, then do the loopback binding. -/
def Disk.create (w : World) (s : Sys) (d : Disk) :
    Except Err Unit × Sys × Disk × Trace :=
  if d.sparse then
    match Disk.expand s d true none with
    | (.error e, s1, t1) => (.error e, s1, d, t1)
    | (.ok _, s1, t1) =>
      match Disk.loopCreate w d with
      | (.error e, d1, t2) => (.error e, s1, d1, t1 ++ t2)
      | (.ok _, d1, t2) => (.ok (), s1, d1, t1 ++ t2)
  else
    match Disk.loopCreate w d with
    | (.error e, d1, t) => (.error e, s, d1, t)
    | (.ok _, d1, t) => (.ok (), s, d1, t)

/-- `LoopbackDisk.cleanup`: detach if bound (the detach tool status is read
into `rc` and ignored), then forget the device; no-op when unbound. -/
def Disk.cleanup (d : Disk) : Disk × Trace :=
  match d.device with
  | none => (d, [])
  | some dev => ({ d with device := none }, [Cmd.losetupDetach dev])

/-! ## Mount hierarchy -/

/-- `BindChrootMount`: a bind mount of a directory into a chroot. -/
structure BindChrootMount where
  src : String
  root : String
  dest : String
  mounted : Bool
deriving Repr, DecidableEq

/-- `BindChrootMount.__init__(src, chroot, dest)`. -/
def BindChrootMount.init (src chroot : String) (dest : Option String) : BindChrootMount :=
  let d := match dest with
    | none => src
    | some x => x
  { src := src, root := chroot, dest := chroot ++ "/" ++ d, mounted := false }

def BindChrootMount.mount (w : World) (s : Sys) (m : BindChrootMount) :
    Except Err Unit × Sys × BindChrootMount × Trace :=
  if m.mounted then (.ok (), s, m, [])
  else
    let s1 := setDir s m.dest true
    let c := Cmd.mountBind m.src m.dest
    if w.exitCode c ≠ 0 then
      (.error (.mountError ("Bind-mounting " ++ m.src ++ " to " ++ m.dest ++ " failed")),
       s1, m, [c])
    else (.ok (), s1, { m with mounted := true }, [c])

def BindChrootMount.unmount (w : World) (m : BindChrootMount) :
    Except Err Unit × BindChrootMount × Trace :=
  if !m.mounted then (.ok (), m, [])
  else
    let c := Cmd.umount m.dest
    if w.exitCode c ≠ 0 then
      (.error (.mountError ("Unable to unmount filesystem at " ++ m.dest)), m, [c])
    else (.ok (), { m with mounted := false }, [c])

/-- `DiskMount`: a mount point bound to a `Disk`. -/
structure DiskMount where
  disk : Disk
  mountdir : String
  fstype : Option String
  rmmountdir : Bool
  mounted : Bool
  rmdir : Bool
deriving Repr, DecidableEq

/-- The trailing block of `DiskMount.unmount`: remove an owned, now-unmounted
mount directory (removal failures swallowed). -/
def DiskMount.rmdirStep (s : Sys) (m : DiskMount) : Sys × DiskMount :=
  if m.rmdir && !m.mounted then
    (setDir s m.mountdir false, { m with rmdir := false })
  else (s, m)

def DiskMount.unmount (w : World) (s : Sys) (m : DiskMount) :
    Except Err Unit × Sys × DiskMount × Trace :=
  if m.mounted then
    let c := Cmd.umount m.mountdir
    if w.exitCode c = 0 then
      let m1 := { m with mounted := false }
      let (s1, m2) := DiskMount.rmdirStep s m1
      (.ok (), s1, m2, [c])
    else
      (.error (.mountError ("Unable to unmount filesystem at " ++ m.mountdir)), s, m, [c])
  else
    let (s1, m1) := DiskMount.rmdirStep s m
    (.ok (), s1, m1, [])

/-- `DiskMount.cleanup`: `Mount.cleanup` (= `unmount`) first, then the owned
Disk's `cleanup` — which is never reached when the unmount raises. -/
def DiskMount.cleanup (w : World) (s : Sys) (m : DiskMount) :
    Except Err Unit × Sys × DiskMount × Trace :=
  match DiskMount.unmount w s m with
  | (.error e, s1, m1, t1) => (.error e, s1, m1, t1)
  | (.ok _, s1, m1, t1) =>
    let (d1, t2) := Disk.cleanup m1.disk
    (.ok (), s1, { m1 with disk := d1 }, t1 ++ t2)

/-- `DiskMount.mount`: no-op when mounted; otherwise create the mount point
directory if absent (recording ownership), run the Disk's `create`, and mount
the bound device.  (The private `__create` step called here is DiskMount's
own, i.e. plain `disk.create()`, regardless of subclassing.) -/
def DiskMount.mount (w : World) (s : Sys) (m : DiskMount) :
    Except Err Unit × Sys × DiskMount × Trace :=
  if m.mounted then (.ok (), s, m, [])
  else
    let (s1, m1) :=
      if !s.dirs m.mountdir then
        (setDir s m.mountdir true, { m with rmdir := m.rmmountdir })
      else (s, m)
    match Disk.create w s1 m1.disk with
    | (.error e, s2, d1, t1) => (.error e, s2, { m1 with disk := d1 }, t1)
    | (.ok _, s2, d1, t1) =>
      let m2 := { m1 with disk := d1 }
      let c := Cmd.mountDev (optStr d1.device) m.mountdir m.fstype
      if w.exitCode c ≠ 0 then
        (.error (.mountError ("Failed to mount " ++ optStr d1.device ++ " to " ++ m.mountdir)),
         s2, m2, t1 ++ [c])
      else (.ok (), s2, { m2 with mounted := true }, t1 ++ [c])

/-- `ExtDiskMount`: a `DiskMount` able to format/resize ext filesystems. -/
structure ExtDiskMount where
  base : DiskMount
  blocksize : Int
  fslabel : String
deriving Repr, DecidableEq

/-- `ExtDiskMount.__format_filesystem`: run mkfs (nonzero status raises), then
the tune step, whose status is not consulted. -/
def ExtDiskMount.format_filesystem (w : World) (m : ExtDiskMount) :
    Except Err Unit × Trace :=
  let dev := optStr m.base.disk.device
  let c := Cmd.mkfsCmd (optStr m.base.fstype) m.fslabel m.blocksize dev
  if w.exitCode c ≠ 0 then
    (.error (.mountError ("Error creating " ++ optStr m.base.fstype ++ " filesystem")), [c])
  else (.ok (), [c, Cmd.tune2fsCmd dev])

/-- Python 2 comparison `x > y` when `x` may be `None` (`None` compares below
every integer). -/
def pyGtOpt (a : Option Int) (b : Int) : Bool :=
  match a with
  | none => false
  | some x => x > b

/-- `ExtDiskMount.__resize_filesystem(size)`: stat the backing file, default
the target to the Disk's declared size, no-op when equal, expand first when
growing, then run `resize2fs` against the backing file (its returned status
is discarded).  The source passes `size` positionally into `expand`, where it
lands in the `create` parameter, so the expansion actually grows the file to
the declared size; this slip is reproduced as-is. -/
def ExtDiskMount.resize_filesystem (w : World) (s : Sys) (m : ExtDiskMount) (size : Option Int) :
    Except Err (Option Int) × Sys × Trace :=
  match s.files m.base.disk.lofile with
  | none => (.error (.osError "No such file or directory"), s, [])
  | some current =>
    let sz := match size with
      | some z => some z
      | none => m.base.disk.declSize
    if sz = some current then (.ok none, s, [])
    else
      let step1 : Except Err Unit × Sys × Trace :=
        if pyGtOpt sz current then
          match sz with
          | some x => Disk.expand s m.base.disk (x ≠ 0) none
          | none => (.ok (), s, [])
        else (.ok (), s, [])
      match step1 with
      | (.error e, s1, t1) => (.error e, s1, t1)
      | (.ok _, s1, t1) =>
        match resize2fs w s1 m.base.disk.lofile sz false with
        | (.error e, s2, t2) => (.error e, s2, t1 ++ t2)
        | (.ok _ret, s2, t2) => (.ok sz, s2, t1 ++ t2)

/-- `ExtDiskMount.__create`: decide format-versus-resize from whether the
backing Disk pre-existed (checked before `create` brings the file into
being), create the Disk, then resize or format accordingly. -/
def ExtDiskMount.createStep (w : World) (s : Sys) (m : ExtDiskMount) :
    Except Err Unit × Sys × ExtDiskMount × Trace :=
  let doResize := !m.base.disk.fixedDev && Disk.existsb s m.base.disk
  match Disk.create w s m.base.disk with
  | (.error e, s1, d1, t1) => (.error e, s1, { m with base := { m.base with disk := d1 } }, t1)
  | (.ok _, s1, d1, t1) =>
    let m1 : ExtDiskMount := { m with base := { m.base with disk := d1 } }
    if doResize then
      match ExtDiskMount.resize_filesystem w s1 m1 none with
      | (.error e, s2, t2) => (.error e, s2, m1, t1 ++ t2)
      | (.ok _, s2, t2) => (.ok (), s2, m1, t1 ++ t2)
    else
      match ExtDiskMount.format_filesystem w m1 with
      | (.error e, t2) => (.error e, s1, m1, t1 ++ t2)
      | (.ok _, t2) => (.ok (), s1, m1, t1 ++ t2)

/-- `ExtDiskMount.mount`: the create/format/resize step runs first — with no
mounted-guard — and only then delegates to the generic `DiskMount.mount`. -/
def ExtDiskMount.mount (w : World) (s : Sys) (m : ExtDiskMount) :
    Except Err Unit × Sys × ExtDiskMount × Trace :=
  match ExtDiskMount.createStep w s m with
  | (.error e, s1, m1, t1) => (.error e, s1, m1, t1)
  | (.ok _, s1, m1, t1) =>
    match DiskMount.mount w s1 m1.base with
    | (r, s2, b2, t2) => (r, s2, { m1 with base := b2 }, t1 ++ t2)

/-- `parse_field` inside `__get_size_from_filesystem`: first line starting
with `field ++ ":"`, with the prefix stripped and the remainder trimmed; a
missing field raises `KeyError`. -/
def parseField (output field : String) : Except Err String :=
  match (pySplitChar '\n' output).find?
      (fun line => (field ++ ":").data.isPrefixOf line.data) with
  | some line => .ok (pyTrim (String.mk (line.data.drop (field.length + 1))))
  | none => .error (.keyError ("Failed to find field " ++ field ++ " in output"))

/-- `ExtDiskMount.__get_size_from_filesystem`: dump the filesystem header and
return `Block count * blocksize` (the dump tool's exit status is ignored; an
unparsable count raises `ValueError`). -/
def ExtDiskMount.get_size_from_filesystem (w : World) (m : ExtDiskMount) :
    Except Err Int × Trace :=
  let c := Cmd.dumpe2fsCmd m.base.disk.lofile
  let out := w.output c
  match parseField out "Block count" with
  | .error e => (.error e, [c])
  | .ok fieldVal =>
    match pyInt fieldVal with
    | none => (.error (.valueError ("invalid literal for int: " ++ fieldVal)), [c])
    | some n => (.ok (n * m.blocksize), [c])

/-- `ExtDiskMount.__resize_to_minimal`: minimal resize then read the resulting
size back from the filesystem header. -/
def ExtDiskMount.resize_to_minimal (w : World) (s : Sys) (m : ExtDiskMount) :
    Except Err Int × Sys × Trace :=
  match resize2fs w s m.base.disk.lofile none true with
  | (.error e, s1, t1) => (.error e, s1, t1)
  | (.ok _, s1, t1) =>
    match ExtDiskMount.get_size_from_filesystem w m with
    | (.error e, t2) => (.error e, s1, t1 ++ t2)
    | (.ok n, t2) => (.ok n, s1, t1 ++ t2)

/-- `ExtDiskMount.resparse(size)`: cleanup, minimal resize, truncate the
backing file to the minimal byte count, resize the filesystem toward `size`
(defaulted inside `__resize_filesystem`), and return the minimal size. -/
def ExtDiskMount.resparse (w : World) (s : Sys) (m : ExtDiskMount) (size : Option Int) :
    Except Err Int × Sys × ExtDiskMount × Trace :=
  match DiskMount.cleanup w s m.base with
  | (.error e, s1, b1, t1) => (.error e, s1, { m with base := b1 }, t1)
  | (.ok _, s1, b1, t1) =>
    let m1 : ExtDiskMount := { m with base := b1 }
    match ExtDiskMount.resize_to_minimal w s1 m1 with
    | (.error e, s2, t2) => (.error e, s2, m1, t1 ++ t2)
    | (.ok minsize, s2, t2) =>
      match Disk.truncate s2 m1.base.disk (some minsize) with
      | (.error e, s3, t3) => (.error e, s3, m1, t1 ++ t2 ++ t3)
      | (.ok _, s3, t3) =>
        match ExtDiskMount.resize_filesystem w s3 m1 size with
        | (.error e, s4, t4) => (.error e, s4, m1, t1 ++ t2 ++ t3 ++ t4)
        | (.ok _, s4, t4) => (.ok minsize, s4, m1, t1 ++ t2 ++ t3 ++ t4)

/-! ## DeviceMapperSnapshot -/

structure DeviceMapperSnapshot where
  imgloop : Disk
  cowloop : Disk
  created : Bool
  name : Option String
deriving Repr, DecidableEq

/-- `DeviceMapperSnapshot.__init__(imgloop, cowloop)`. -/
def DeviceMapperSnapshot.init (imgloop cowloop : Disk) : DeviceMapperSnapshot :=
  { imgloop := imgloop, cowloop := cowloop, created := false, name := none }

/-- The `path` property: the device-mapper node path when a name exists. -/
def DeviceMapperSnapshot.get_path (sn : DeviceMapperSnapshot) : Option String :=
  match sn.name with
  | none => none
  | some n => some ("/dev/mapper/" ++ n)

/-- The process-id-plus-random snapshot name generated at creation time. -/
def mkSnapName (w : World) : String :=
  "imgcreate-" ++ toString w.pid ++ "-" ++ toString w.randVal

/-- `DeviceMapperSnapshot.create`: no-op when created; otherwise create both
backing Disks, generate the name, stat the origin file for the table, and run
the device-mapper create command — cleaning up both Disks and raising a
snapshot error when that command fails (the generated name is left in
place). -/
def DeviceMapperSnapshot.create (w : World) (s : Sys) (sn : DeviceMapperSnapshot) :
    Except Err Unit × Sys × DeviceMapperSnapshot × Trace :=
  if sn.created then (.ok (), s, sn, [])
  else
    match Disk.create w s sn.imgloop with
    | (.error e, s1, d1, t1) => (.error e, s1, { sn with imgloop := d1 }, t1)
    | (.ok _, s1, d1, t1) =>
      match Disk.create w s1 sn.cowloop with
      | (.error e, s2, d2, t2) =>
        (.error e, s2, { sn with imgloop := d1, cowloop := d2 }, t1 ++ t2)
      | (.ok _, s2, d2, t2) =>
        let nm := mkSnapName w
        let sn1 : DeviceMapperSnapshot := { sn with imgloop := d1, cowloop := d2, name := some nm }
        match s2.files d1.lofile with
        | none => (.error (.osError "No such file or directory"), s2, sn1, t1 ++ t2)
        | some size =>
          let table := "0 " ++ toString (Int.ediv size 512) ++ " snapshot " ++
                       optStr d1.device ++ " " ++ optStr d2.device ++ " p 8"
          let c := Cmd.dmsetupCreate nm table
          if w.exitCode c ≠ 0 then
            let (d2c, tc1) := Disk.cleanup sn1.cowloop
            let (d1c, tc2) := Disk.cleanup sn1.imgloop
            (.error (.snapshotError ("Could not create snapshot device using dmsetup create " ++ nm)),
             s2, { sn1 with imgloop := d1c, cowloop := d2c }, t1 ++ t2 ++ [c] ++ tc1 ++ tc2)
          else (.ok (), s2, { sn1 with created := true }, t1 ++ t2 ++ [c])

/-- `DeviceMapperSnapshot.remove(ignore_errors)`: no-op when not created;
otherwise run the device-mapper remove command, raising when it fails and
errors are not ignored (leaving all state untouched); in the remaining cases
reset name/created and clean up both backing Disks. -/
def DeviceMapperSnapshot.remove (w : World) (sn : DeviceMapperSnapshot) (ignore_errors : Bool) :
    Except Err Unit × DeviceMapperSnapshot × Trace :=
  if !sn.created then (.ok (), sn, [])
  else
    match sn.name with
    | none => (.error (.typeError "execv argument must be a string"), sn, [])
    | some nm =>
      let c := Cmd.dmsetupRemove nm
      let rc := w.exitCode c
      if !ignore_errors && rc ≠ 0 then
        (.error (.snapshotError "Could not remove snapshot device"), sn, [c])
      else
        let sn1 : DeviceMapperSnapshot := { sn with name := none, created := false }
        let (d2, tc1) := Disk.cleanup sn1.cowloop
        let (d1, tc2) := Disk.cleanup sn1.imgloop
        (.ok (), { sn1 with cowloop := d2, imgloop := d1 }, [c] ++ tc1 ++ tc2)

/-- `DeviceMapperSnapshot.get_cow_used`: 0 when never created; otherwise parse
the fourth whitespace token of the status output as `used/total` and return
`used * 512`.  Only a `ValueError` from the integer parse is converted to a
snapshot error; a too-short output raises `IndexError`. -/
def DeviceMapperSnapshot.get_cow_used (w : World) (sn : DeviceMapperSnapshot) :
    Except Err Int × Trace :=
  if !sn.created then (.ok 0, [])
  else
    match sn.name with
    | none => (.error (.typeError "execv argument must be a string"), [])
    | some nm =>
      let c := Cmd.dmsetupStatus nm
      let out := w.output c
      match (pySplit out)[3]? with
      | none => (.error .indexError, [c])
      | some tok =>
        match pyInt (firstField '/' tok) with
        | none => (.error (.snapshotError ("Failed to parse dmsetup status: " ++ out)), [c])
        | some used => (.ok (used * 512), [c])

/-! ## create_image_minimizer -/

/-- The origin Disk built by `create_image_minimizer` (the bogus `None` size). -/
def minimizerImgloop (image : String) : Disk :=
  { lofile := image, declSize := none, device := none, sparse := false, fixedDev := false }

/-- The 64 MiB sparse COW Disk built by `create_image_minimizer`. -/
def minimizerCowloop (path : String) : Disk :=
  { lofile := joinPath (dirname path) "osmin", declSize := some (64 * 1024 * 1024),
    device := none, sparse := true, fixedDev := false }

/-- The snapshot object `create_image_minimizer` starts from. -/
def minimizerSnapshot (path image : String) : DeviceMapperSnapshot :=
  DeviceMapperSnapshot.init (minimizerImgloop image) (minimizerCowloop path)

/-- The `try/finally` epilogue of `create_image_minimizer`: remove the
snapshot with `ignore_errors` set because an exception `e` is in flight; if
the removal itself raises, its exception replaces the original. -/
def minimizerFinallyFail (w : World) (sn : DeviceMapperSnapshot) (e : Err) :
    Except Err Unit × DeviceMapperSnapshot × Trace :=
  match DeviceMapperSnapshot.remove w sn true with
  | (.error e2, sn2, t) => (.error e2, sn2, t)
  | (.ok _, sn2, t) => (.error e, sn2, t)

/-- `create_image_minimizer(path, image, minimal_size)`: wrap the image and a
fresh 64 MiB COW as loopback Disks, create a snapshot over them, resize the
snapshot device toward the minimal size and read the COW usage — removing the
snapshot on every exit path, with removal failures ignored exactly when an
exception is propagating — then truncate the COW to the used byte count,
squash it into the output, and delete the COW file. -/
def create_image_minimizer (w : World) (s : Sys) (path image : String) (minimal_size : Int) :
    Except Err Unit × Sys × DeviceMapperSnapshot × Trace :=
  let snapshot := minimizerSnapshot path image
  match DeviceMapperSnapshot.create w s snapshot with
  | (.error e, s1, sn1, t1) =>
    let (r, sn2, t2) := minimizerFinallyFail w sn1 e
    (r, s1, sn2, t1 ++ t2)
  | (.ok _, s1, sn1, t1) =>
    match resize2fs w s1 (optStr (DeviceMapperSnapshot.get_path sn1)) (some minimal_size) false with
    | (.error e, s2, t2) =>
      let (r, sn2, t3) := minimizerFinallyFail w sn1 e
      (r, s2, sn2, t1 ++ t2 ++ t3)
    | (.ok _, s2, t2) =>
      match DeviceMapperSnapshot.get_cow_used w sn1 with
      | (.error e, t3) =>
        let (r, sn2, t4) := minimizerFinallyFail w sn1 e
        (r, s2, sn2, t1 ++ t2 ++ t3 ++ t4)
      | (.ok cow_used, t3) =>
        match DeviceMapperSnapshot.remove w sn1 false with
        | (.error e, sn2, t4) => (.error e, s2, sn2, t1 ++ t2 ++ t3 ++ t4)
        | (.ok _, sn2, t4) =>
          match Disk.truncate s2 sn2.cowloop (some cow_used) with
          | (.error e, s3, t5) => (.error e, s3, sn2, t1 ++ t2 ++ t3 ++ t4 ++ t5)
          | (.ok _, s3, t5) =>
            match mksquashfs w sn2.cowloop.lofile path with
            | (.error e, t6) => (.error e, s3, sn2, t1 ++ t2 ++ t3 ++ t4 ++ t5 ++ t6)
            | (.ok _, t6) =>
              match s3.files sn2.cowloop.lofile with
              | none => (.error (.osError "No such file or directory"), s3, sn2,
                         t1 ++ t2 ++ t3 ++ t4 ++ t5 ++ t6)
              | some _ =>
                (.ok (), delFile s3 sn2.cowloop.lofile, sn2,
                 t1 ++ t2 ++ t3 ++ t4 ++ t5 ++ t6)

/-! ## Concrete environments used by witnesses and counterexamples -/

/-- All tools succeed; stdout empty except the loop-device query. -/
def worldOk : World :=
  { exitCode := fun _ => 0
    , output := fun c => match c with
      | Cmd.losetupFind => "/dev/loop0"
      | _ => ""
    , isatty := false, pid := 42, randVal := 7, tempName := "/tmp/resize-image-t" }

/-- Binding the loop device for the COW file fails; everything else succeeds. -/
def worldA : World :=
  { worldOk with exitCode := fun c => match c with
      | Cmd.losetupBind _ "/out/osmin" => 1
      | _ => 0 }

/-- The device-mapper create command fails; everything else succeeds. -/
def worldB : World :=
  { worldOk with exitCode := fun c => match c with
      | Cmd.dmsetupCreate _ _ => 1
      | _ => 0 }

/-- The filesystem check on the snapshot device fails; everything else succeeds. -/
def worldC : World :=
  { worldOk with exitCode := fun c => match c with
      | Cmd.e2fsckCmd "/dev/mapper/imgcreate-42-7" => 1
      | _ => 0 }

/-- The device-mapper remove command fails; everything else succeeds. -/
def worldRmFail : World :=
  { worldOk with exitCode := fun c => match c with
      | Cmd.dmsetupRemove _ => 1
      | _ => 0 }

/-- A 1024-byte image file at `/img` and nothing else. -/
def sysA : Sys :=
  { files := fun x => if x = "/img" then some 1024 else none, dirs := fun _ => false }

/-- A snapshot in the state reached after a successful `create`. -/
def snapLive : DeviceMapperSnapshot :=
  { imgloop := { lofile := "/img", declSize := none, device := some "/dev/loop0",
                 sparse := false, fixedDev := false }
    , cowloop := { lofile := "/out/osmin", declSize := some 67108864, device := some "/dev/loop1",
                   sparse := true, fixedDev := false }
    , created := true, name := some "imgcreate-42-7" }

/-! ## Helper lemmas -/

theorem Disk.cleanup_device (d : Disk) : (Disk.cleanup d).1.device = none := by
  unfold Disk.cleanup
  cases h : d.device <;> simp [h]

theorem Disk.cleanup_lofile (d : Disk) : (Disk.cleanup d).1.lofile = d.lofile := by
  unfold Disk.cleanup
  cases h : d.device <;> simp [h]

/-- `remove(ignore_errors=True)` on a live snapshot: full characterization. -/
theorem remove_ignore_spec (w : World) (sn : DeviceMapperSnapshot) (nm : String)
    (hc : sn.created = true) (hn : sn.name = some nm) :
    DeviceMapperSnapshot.remove w sn true =
      (.ok (),
       { imgloop := (Disk.cleanup sn.imgloop).1, cowloop := (Disk.cleanup sn.cowloop).1,
         created := false, name := none },
       [Cmd.dmsetupRemove nm] ++ (Disk.cleanup sn.cowloop).2 ++ (Disk.cleanup sn.imgloop).2) := by
  unfold DeviceMapperSnapshot.remove
  simp [hc, hn]

/-- `remove(ignore_errors=False)` on a live snapshot when the removal command
fails: raises with all state untouched. -/
theorem remove_fail_spec (w : World) (sn : DeviceMapperSnapshot) (nm : String)
    (hc : sn.created = true) (hn : sn.name = some nm)
    (hrc : w.exitCode (Cmd.dmsetupRemove nm) ≠ 0) :
    DeviceMapperSnapshot.remove w sn false =
      (.error (.snapshotError "Could not remove snapshot device"), sn, [Cmd.dmsetupRemove nm]) := by
  unfold DeviceMapperSnapshot.remove
  simp [hc, hn, hrc]

/-! ## Claim C8 -/

/-- Claim C8 (confirmed): calling the resize2fs operation with both a target
size and minimal set, or with neither set, raises a caller-configuration
error immediately, before any external command is invoked; calling it with
exactly one of the two set never raises this error. -/
theorem C8_resize_arg_check :
    (∀ (w : World) (s : Sys) (fs : String) (n : Int),
       resize2fs w s fs (some n) true =
         (.error (.runtimeError "Cant specify both minimal and a size for resize!"), s, []))
  ∧ (∀ (w : World) (s : Sys) (fs : String),
       resize2fs w s fs none false =
         (.error (.runtimeError "Must specify either a size or minimal for resize!"), s, []))
  ∧ (∀ (w : World) (s : Sys) (fs : String) (n : Int) (msg : String),
       (resize2fs w s fs (some n) false).1 ≠ .error (.runtimeError msg))
  ∧ (∀ (w : World) (s : Sys) (fs : String) (msg : String),
       (resize2fs w s fs none true).1 ≠ .error (.runtimeError msg)) := by
  refine ⟨fun w s fs n => rfl, fun w s fs => rfl, fun w s fs n msg hcontra => ?_,
    fun w s fs msg hcontra => ?_⟩
  · unfold resize2fs at hcontra
    rcases hE : e2fsck w fs with ⟨rc2, t4⟩
    simp only [hE, Option.isSome_some, Option.isNone_some, Bool.false_and, Bool.not_false,
      Bool.true_and, Bool.and_false, Bool.false_eq_true, if_false, Option.getD_some] at hcontra
    by_cases h1 : w.exitCode (Cmd.resizeCmd fs (sizeK n)) = 0 <;>
      by_cases h2 : rc2 = 0 <;>
      simp [h1, h2] at hcontra
  · unfold resize2fs at hcontra
    rcases hE : e2fsck w fs with ⟨rc2, t4⟩
    simp only [hE, Option.isSome_none, Option.isNone_none, Bool.true_and, Bool.and_false,
      Bool.not_true, Bool.false_and, Bool.false_eq_true, if_false, if_true] at hcontra
    by_cases h1 : w.exitCode (Cmd.resizeCmd fs "-M") = 0 <;>
      by_cases h2 : rc2 = 0 <;>
      simp [h1, h2] at hcontra

/-! ## Claim C10 -/

/-- Claim C10 (confirmed): `DiskMount.cleanup` performs `unmount` first and
the Disk's `cleanup` only afterwards; when the unmount command fails it
raises, the Disk cleanup is never reached (no detach command in the trace)
and the mount object — loop binding included — is left exactly as it was. -/
theorem C10_cleanup_order (w : World) (s : Sys) (m : DiskMount)
    (hm : m.mounted = true) (hrc : w.exitCode (Cmd.umount m.mountdir) ≠ 0) :
    DiskMount.cleanup w s m =
      (.error (.mountError ("Unable to unmount filesystem at " ++ m.mountdir)), s, m,
       [Cmd.umount m.mountdir]) := by
  unfold DiskMount.cleanup DiskMount.unmount
  simp [hm, hrc]

/-- Concrete mount for the C10 witness: mounted, loop device bound, and a
failing umount command. -/
def mnt10 : DiskMount :=
  { disk := { lofile := "/sp.img", declSize := some 4096, device := some "/dev/loop0",
              sparse := true, fixedDev := false }
    , mountdir := "/mnt/x", fstype := some "ext3", rmmountdir := true,
      mounted := true, rmdir := false }

def worldUmountFail : World :=
  { worldOk with exitCode := fun c => match c with
      | Cmd.umount _ => 1
      | _ => 0 }

/-- Witness for C10 at a concrete mounted object and failing umount. -/
theorem C10_cleanup_order_witness :
    DiskMount.cleanup worldUmountFail sysA mnt10 =
      (.error (.mountError "Unable to unmount filesystem at /mnt/x"), sysA, mnt10,
       [Cmd.umount "/mnt/x"]) :=
  C10_cleanup_order worldUmountFail sysA mnt10 rfl (by decide)

/-! ## Claim C3 -/

/-- Counterexample to claim C3 as stated: with the removal command failing
and `ignore_errors` false, removal was attempted, yet `remove` raises with
the internal state not reset and both backing Disks still bound — so "in
every case where removal was attempted it resets the internal name/created
state and cleans up both backing Disks" is false. -/
theorem C3_counterexample :
    (DeviceMapperSnapshot.remove worldRmFail snapLive false).1
        = .error (.snapshotError "Could not remove snapshot device")
    ∧ (DeviceMapperSnapshot.remove worldRmFail snapLive false).2.1.created = true
    ∧ (DeviceMapperSnapshot.remove worldRmFail snapLive false).2.1.name = some "imgcreate-42-7"
    ∧ (DeviceMapperSnapshot.remove worldRmFail snapLive false).2.1.imgloop.device = some "/dev/loop0"
    ∧ (DeviceMapperSnapshot.remove worldRmFail snapLive false).2.1.cowloop.device = some "/dev/loop1" := by
  decide

/-- Claim C3 (corrected): `remove(ignore_errors=true)` on a live snapshot
never raises — even when the removal command fails — and resets name/created
and releases both backing Disks; but when `ignore_errors` is false and the
removal command fails, `remove` raises *before* any state reset or Disk
cleanup, leaving everything untouched. -/
theorem C3_remove_behavior :
    (∀ (w : World) (sn : DeviceMapperSnapshot) (nm : String),
       sn.created = true → sn.name = some nm →
       (DeviceMapperSnapshot.remove w sn true).1 = .ok ()
       ∧ (DeviceMapperSnapshot.remove w sn true).2.1.created = false
       ∧ (DeviceMapperSnapshot.remove w sn true).2.1.name = none
       ∧ (DeviceMapperSnapshot.remove w sn true).2.1.imgloop.device = none
       ∧ (DeviceMapperSnapshot.remove w sn true).2.1.cowloop.device = none)
  ∧ (∀ (w : World) (sn : DeviceMapperSnapshot) (nm : String),
       sn.created = true → sn.name = some nm →
       w.exitCode (Cmd.dmsetupRemove nm) ≠ 0 →
       DeviceMapperSnapshot.remove w sn false =
         (.error (.snapshotError "Could not remove snapshot device"), sn,
          [Cmd.dmsetupRemove nm])) := by
  constructor
  · intro w sn nm hc hn
    rw [remove_ignore_spec w sn nm hc hn]
    simp [Disk.cleanup_device]
  · intro w sn nm hc hn hrc
    exact remove_fail_spec w sn nm hc hn hrc

/-- Witness for C3 at a live snapshot, with both the ignoring and the
propagating flavor exercised. -/
theorem C3_remove_behavior_witness :
    ((DeviceMapperSnapshot.remove worldOk snapLive true).1 = .ok ()
     ∧ (DeviceMapperSnapshot.remove worldOk snapLive true).2.1.created = false
     ∧ (DeviceMapperSnapshot.remove worldOk snapLive true).2.1.name = none
     ∧ (DeviceMapperSnapshot.remove worldOk snapLive true).2.1.imgloop.device = none
     ∧ (DeviceMapperSnapshot.remove worldOk snapLive true).2.1.cowloop.device = none)
    ∧ DeviceMapperSnapshot.remove worldRmFail snapLive false =
        (.error (.snapshotError "Could not remove snapshot device"), snapLive,
         [Cmd.dmsetupRemove "imgcreate-42-7"]) :=
  ⟨C3_remove_behavior.1 worldOk snapLive "imgcreate-42-7" rfl rfl,
   C3_remove_behavior.2 worldRmFail snapLive "imgcreate-42-7" rfl rfl (by decide)⟩

/-! ## Claim C7 -/

/-- Status output from the spec's worked example. -/
def worldStatus : World :=
  { worldOk with output := fun c => match c with
      | Cmd.dmsetupStatus _ => "0 8388608 snapshot 416/1048576"
      | _ => "" }

/-- Status output whose fourth token is not of the `used/total` form. -/
def worldStatusBad : World :=
  { worldOk with output := fun c => match c with
      | Cmd.dmsetupStatus _ => "0 8388608 snapshot abc/5"
      | _ => "" }

/-- Counterexample to claim C7 as stated: a status output of another format
(empty stdout, fewer than four tokens) makes `get_cow_used` raise a bare
`IndexError`, not a snapshot-class error. -/
theorem C7_counterexample :
    DeviceMapperSnapshot.get_cow_used worldOk snapLive =
      (.error .indexError, [Cmd.dmsetupStatus "imgcreate-42-7"]) := by
  decide

/-- Claim C7 (corrected): `get_cow_used` returns 0 when never created;
on the example status line `"0 8388608 snapshot 416/1048576"` it returns
`416 * 512 = 212992`; when a fourth token exists but its `used` part fails
integer parsing it raises a snapshot-class error; but when the output has
fewer than four whitespace-separated tokens an `IndexError` escapes instead
of a snapshot-class error. -/
theorem C7_get_cow_used_spec :
    (∀ (w : World) (sn : DeviceMapperSnapshot), sn.created = false →
       DeviceMapperSnapshot.get_cow_used w sn = (.ok 0, []))
  ∧ (DeviceMapperSnapshot.get_cow_used worldStatus snapLive
       = (.ok 212992, [Cmd.dmsetupStatus "imgcreate-42-7"]))
  ∧ (∀ (w : World) (sn : DeviceMapperSnapshot) (nm tok : String),
       sn.created = true → sn.name = some nm →
       (pySplit (w.output (Cmd.dmsetupStatus nm)))[3]? = some tok →
       pyInt (firstField '/' tok) = none →
       (DeviceMapperSnapshot.get_cow_used w sn).1 =
         .error (.snapshotError ("Failed to parse dmsetup status: "
            ++ w.output (Cmd.dmsetupStatus nm))))
  ∧ (∀ (w : World) (sn : DeviceMapperSnapshot) (nm : String),
       sn.created = true → sn.name = some nm →
       (pySplit (w.output (Cmd.dmsetupStatus nm)))[3]? = none →
       (DeviceMapperSnapshot.get_cow_used w sn).1 = .error .indexError) := by
  refine ⟨?_, by decide, ?_, ?_⟩
  · intro w sn hc
    unfold DeviceMapperSnapshot.get_cow_used
    simp [hc]
  · intro w sn nm tok hc hn h3 h4
    unfold DeviceMapperSnapshot.get_cow_used
    simp [hc, hn, h3, h4]
  · intro w sn nm hc hn h3
    unfold DeviceMapperSnapshot.get_cow_used
    simp [hc, hn, h3]

/-- Witness for C7: the never-created case, a parse failure, and a too-short
status output, each at concrete inputs. -/
theorem C7_get_cow_used_spec_witness :
    DeviceMapperSnapshot.get_cow_used worldOk (minimizerSnapshot "/out/min.sq" "/img") = (.ok 0, [])
    ∧ (DeviceMapperSnapshot.get_cow_used worldStatusBad snapLive).1 =
        .error (.snapshotError "Failed to parse dmsetup status: 0 8388608 snapshot abc/5")
    ∧ (DeviceMapperSnapshot.get_cow_used worldOk snapLive).1 = .error .indexError :=
  ⟨C7_get_cow_used_spec.1 worldOk (minimizerSnapshot "/out/min.sq" "/img") rfl,
   C7_get_cow_used_spec.2.2.1 worldStatusBad snapLive "imgcreate-42-7" "abc/5" rfl rfl
     (by decide) (by decide),
   C7_get_cow_used_spec.2.2.2 worldOk snapLive "imgcreate-42-7" rfl rfl (by decide)⟩

/-! ## Claim C9 -/

/-- The tune step fails while everything else succeeds. -/
def worldTuneFail : World :=
  { worldOk with exitCode := fun c => match c with
      | Cmd.tune2fsCmd _ => 1
      | _ => 0 }

/-- The mkfs command fails while everything else succeeds. -/
def worldMkfsFail : World :=
  { worldOk with exitCode := fun c => match c with
      | Cmd.mkfsCmd _ _ _ _ => 1
      | _ => 0 }

/-- An ext-aware mount whose Disk is bound, for format-step scenarios. -/
def mnt9 : ExtDiskMount :=
  { base := mnt10, blocksize := 1024, fslabel := "lbl" }

/-- Counterexample to claim C9 as stated: the tune2fs invocation inside the
format step exits nonzero, yet the operation completes without raising — so
not every nonzero adapter exit is fatal (nor is tune2fs the documented
filesystem-check exception). -/
theorem C9_counterexample :
    worldTuneFail.exitCode (Cmd.tune2fsCmd "/dev/loop0") = 1
    ∧ (ExtDiskMount.format_filesystem worldTuneFail mnt9).1 = .ok ()
    ∧ Cmd.tune2fsCmd "/dev/loop0" ∈ (ExtDiskMount.format_filesystem worldTuneFail mnt9).2 := by
  decide

/-- Claim C9 (corrected): a nonzero exit raises immediately for the mount,
unmount, loop-allocate, loop-bind, mkfs, snapshot-create-path removal and
compression commands; but besides the filesystem check (whose status is
returned), the tune step, the loop detach inside `Disk.cleanup`, the resize
tool itself (status returned to the caller) and the device-mapper removal
under `ignore_errors` all tolerate nonzero exits without raising. -/
theorem C9_adapter_failures :
    (∀ (w : World) (s : Sys) (m : BindChrootMount), m.mounted = false →
       w.exitCode (Cmd.mountBind m.src m.dest) ≠ 0 →
       (BindChrootMount.mount w s m).1 =
         .error (.mountError ("Bind-mounting " ++ m.src ++ " to " ++ m.dest ++ " failed")))
  ∧ (∀ (w : World) (m : BindChrootMount), m.mounted = true →
       w.exitCode (Cmd.umount m.dest) ≠ 0 →
       (BindChrootMount.unmount w m).1 =
         .error (.mountError ("Unable to unmount filesystem at " ++ m.dest)))
  ∧ (∀ (w : World) (s : Sys) (m : DiskMount), m.mounted = true →
       w.exitCode (Cmd.umount m.mountdir) ≠ 0 →
       (DiskMount.unmount w s m).1 =
         .error (.mountError ("Unable to unmount filesystem at " ++ m.mountdir)))
  ∧ (∀ (w : World) (d : Disk), d.device = none →
       w.exitCode Cmd.losetupFind ≠ 0 →
       (Disk.loopCreate w d).1 =
         .error (.mountError ("Failed to allocate loop device for " ++ d.lofile)))
  ∧ (∀ (w : World) (d : Disk) (dev : String) (rest : List String), d.device = none →
       w.exitCode Cmd.losetupFind = 0 →
       pySplit (w.output Cmd.losetupFind) = dev :: rest →
       w.exitCode (Cmd.losetupBind dev d.lofile) ≠ 0 →
       (Disk.loopCreate w d).1 =
         .error (.mountError ("Failed to allocate loop device for " ++ d.lofile)))
  ∧ (∀ (w : World) (m : ExtDiskMount),
       w.exitCode (Cmd.mkfsCmd (optStr m.base.fstype) m.fslabel m.blocksize
                     (optStr m.base.disk.device)) ≠ 0 →
       (ExtDiskMount.format_filesystem w m).1 =
         .error (.mountError ("Error creating " ++ optStr m.base.fstype ++ " filesystem")))
  ∧ (∀ (w : World) (m : ExtDiskMount),
       w.exitCode (Cmd.mkfsCmd (optStr m.base.fstype) m.fslabel m.blocksize
                     (optStr m.base.disk.device)) = 0 →
       ExtDiskMount.format_filesystem w m =
         (.ok (), [Cmd.mkfsCmd (optStr m.base.fstype) m.fslabel m.blocksize
                     (optStr m.base.disk.device),
                   Cmd.tune2fsCmd (optStr m.base.disk.device)]))
  ∧ (∀ (w : World) (s : Sys) (fs : String),
       w.exitCode (Cmd.resizeCmd fs "-M") ≠ 0 →
       (resize2fs w s fs none true).1 = .ok (w.exitCode (Cmd.resizeCmd fs "-M")))
  ∧ (∀ (d : Disk) (dev : String), d.device = some dev →
       Disk.cleanup d = ({ d with device := none }, [Cmd.losetupDetach dev]))
  ∧ (∀ (w : World) (sn : DeviceMapperSnapshot) (nm : String),
       sn.created = true → sn.name = some nm →
       w.exitCode (Cmd.dmsetupRemove nm) ≠ 0 →
       (DeviceMapperSnapshot.remove w sn false).1 =
         .error (.snapshotError "Could not remove snapshot device"))
  ∧ (∀ (w : World) (sn : DeviceMapperSnapshot) (nm : String),
       sn.created = true → sn.name = some nm →
       (DeviceMapperSnapshot.remove w sn true).1 = .ok ())
  ∧ (∀ (w : World) (a b : String),
       w.exitCode (Cmd.squashfsCmd a b (!w.isatty)) ≠ 0 →
       ∃ msg, (mksquashfs w a b).1 = .error (.squashfsError msg)) := by
  refine ⟨?_, ?_, ?_, ?_, ?_, ?_, ?_, ?_, ?_, ?_, ?_, ?_⟩
  · intro w s m hm hrc
    unfold BindChrootMount.mount
    simp [hm, hrc]
  · intro w m hm hrc
    unfold BindChrootMount.unmount
    simp [hm, hrc]
  · intro w s m hm hrc
    unfold DiskMount.unmount
    simp [hm, hrc]
  · intro w d hd hrc
    unfold Disk.loopCreate
    simp [hd, hrc]
  · intro w d dev rest hd hfind hsplit hrc
    unfold Disk.loopCreate
    simp [hd, hfind, hsplit, hrc]
  · intro w m hrc
    unfold ExtDiskMount.format_filesystem
    simp [hrc]
  · intro w m hrc
    unfold ExtDiskMount.format_filesystem
    simp [hrc]
  · intro w s fs hrc
    unfold resize2fs
    simp [e2fsck, hrc]
  · intro d dev hd
    unfold Disk.cleanup
    simp [hd]
  · intro w sn nm hc hn hrc
    rw [remove_fail_spec w sn nm hc hn hrc]
  · intro w sn nm hc hn
    rw [remove_ignore_spec w sn nm hc hn]
  · intro w a b hrc
    refine ⟨"mksquashfs exited with error ("
      ++ toString (w.exitCode (Cmd.squashfsCmd a b (!w.isatty))) ++ ")", ?_⟩
    unfold mksquashfs
    rw [if_pos hrc]

/-- Witness for C9: a failing mkfs raises a mount error; a failing removal
with errors ignored still returns successfully. -/
theorem C9_adapter_failures_witness :
    (ExtDiskMount.format_filesystem worldMkfsFail mnt9).1 =
      .error (.mountError "Error creating ext3 filesystem")
    ∧ (DeviceMapperSnapshot.remove worldRmFail snapLive true).1 = .ok () :=
  ⟨C9_adapter_failures.2.2.2.2.2.1 worldMkfsFail mnt9 (by decide),
   C9_adapter_failures.2.2.2.2.2.2.2.2.2.2.1 worldRmFail snapLive "imgcreate-42-7" rfl rfl⟩

/-! ## Inversion helpers for `DeviceMapperSnapshot.create` -/

/-- A successful `create` from a fresh snapshot leaves `created` true and the
generated name in place. -/
theorem DMS_create_ok_inv (w : World) (s : Sys) (sn : DeviceMapperSnapshot)
    (s' : Sys) (sn' : DeviceMapperSnapshot) (t : Trace)
    (hc : sn.created = false)
    (h : DeviceMapperSnapshot.create w s sn = (.ok (), s', sn', t)) :
    sn'.created = true ∧ sn'.name = some (mkSnapName w) := by
  unfold DeviceMapperSnapshot.create at h
  simp only [hc, Bool.false_eq_true, if_false] at h
  split at h
  · simp at h
  · split at h
    · simp at h
    · split at h
      · simp at h
      · split at h
        · simp at h
        · simp only [Prod.mk.injEq] at h
          obtain ⟨-, -, hsn, -⟩ := h
          rw [← hsn]
          exact ⟨rfl, rfl⟩

/-- `create` from a fresh snapshot, with both Disk creations succeeding and
the device-mapper create command failing: both Disks are cleaned up, a
snapshot-class error is raised, `created` stays false — and the generated
name remains recorded. -/
theorem DMS_create_dmfail_spec (w : World) (s : Sys) (sn : DeviceMapperSnapshot)
    (s1 : Sys) (d1 : Disk) (t1 : Trace) (s2 : Sys) (d2 : Disk) (t2 : Trace) (fsz : Int)
    (hc : sn.created = false)
    (h1 : Disk.create w s sn.imgloop = (.ok (), s1, d1, t1))
    (h2 : Disk.create w s1 sn.cowloop = (.ok (), s2, d2, t2))
    (h3 : s2.files d1.lofile = some fsz)
    (h4 : ∀ nm tb, w.exitCode (Cmd.dmsetupCreate nm tb) ≠ 0) :
    DeviceMapperSnapshot.create w s sn =
      (.error (.snapshotError ("Could not create snapshot device using dmsetup create "
          ++ mkSnapName w)),
       s2,
       { imgloop := (Disk.cleanup d1).1, cowloop := (Disk.cleanup d2).1,
         created := false, name := some (mkSnapName w) },
       t1 ++ t2
         ++ [Cmd.dmsetupCreate (mkSnapName w)
              ("0 " ++ toString (Int.ediv fsz 512) ++ " snapshot "
                ++ optStr d1.device ++ " " ++ optStr d2.device ++ " p 8")]
         ++ (Disk.cleanup d2).2 ++ (Disk.cleanup d1).2) := by
  unfold DeviceMapperSnapshot.create
  simp [hc, h1, h2, h3, h4]

/-! ## Claim C2 -/

/-- Counterexample to claim C2 as stated: when binding the loop device for
the COW Disk fails (after the image Disk was bound), `create` raises a
mount-class error — not a snapshot-class one — and the image Disk's loop
binding survives the failed call. -/
theorem C2_counterexample :
    (DeviceMapperSnapshot.create worldA sysA (minimizerSnapshot "/out/min.sq" "/img")).1
      = .error (.mountError "Failed to allocate loop device for /out/osmin")
  ∧ (DeviceMapperSnapshot.create worldA sysA
       (minimizerSnapshot "/out/min.sq" "/img")).2.2.1.imgloop.device = some "/dev/loop0"
  ∧ Cmd.losetupDetach "/dev/loop0" ∉
      (DeviceMapperSnapshot.create worldA sysA (minimizerSnapshot "/out/min.sq" "/img")).2.2.2 := by
  decide

/-- Claim C2 (corrected): when the device-mapper create command fails, both
backing Disks are cleaned up, a snapshot-class error is raised and `created`
stays false (though the generated name is retained); but when creating the
COW backing Disk fails, the error propagates as-is (a mount-class error for
loop failures) and the already-bound image Disk is left bound. -/
theorem C2_create_failure :
    (∀ (w : World) (s : Sys) (sn : DeviceMapperSnapshot) (fsz : Int),
       sn.created = false →
       (Disk.create w s sn.imgloop).1 = .ok () →
       (Disk.create w (Disk.create w s sn.imgloop).2.1 sn.cowloop).1 = .ok () →
       ((Disk.create w (Disk.create w s sn.imgloop).2.1 sn.cowloop).2.1).files
           ((Disk.create w s sn.imgloop).2.2.1).lofile = some fsz →
       (∀ nm tb, w.exitCode (Cmd.dmsetupCreate nm tb) ≠ 0) →
       (DeviceMapperSnapshot.create w s sn).1 =
           .error (.snapshotError ("Could not create snapshot device using dmsetup create "
              ++ mkSnapName w))
       ∧ (DeviceMapperSnapshot.create w s sn).2.2.1.imgloop.device = none
       ∧ (DeviceMapperSnapshot.create w s sn).2.2.1.cowloop.device = none
       ∧ (DeviceMapperSnapshot.create w s sn).2.2.1.created = false)
  ∧ (∀ (w : World) (s : Sys) (sn : DeviceMapperSnapshot) (e : Err),
       sn.created = false →
       (Disk.create w s sn.imgloop).1 = .ok () →
       (Disk.create w (Disk.create w s sn.imgloop).2.1 sn.cowloop).1 = .error e →
       (DeviceMapperSnapshot.create w s sn).1 = .error e
       ∧ (DeviceMapperSnapshot.create w s sn).2.2.1.imgloop =
           (Disk.create w s sn.imgloop).2.2.1) := by
  constructor
  · intro w s sn fsz hc h1 h2 h3 h4
    rcases hA : Disk.create w s sn.imgloop with ⟨r1, s1, d1, t1⟩
    rw [hA] at h1 h2 h3
    cases r1 with
    | error e1 => simp at h1
    | ok u1 =>
      rcases hB : Disk.create w s1 sn.cowloop with ⟨r2, s2, d2, t2⟩
      rw [hB] at h2 h3
      cases r2 with
      | error e2 => simp at h2
      | ok u2 =>
        cases u1; cases u2
        rw [DMS_create_dmfail_spec w s sn s1 d1 t1 s2 d2 t2 fsz hc hA hB h3 h4]
        simp [Disk.cleanup_device]
  · intro w s sn e hc h1 h2
    rcases hA : Disk.create w s sn.imgloop with ⟨r1, s1, d1, t1⟩
    rw [hA] at h1 h2
    cases r1 with
    | error e1 => simp at h1
    | ok u1 =>
      cases u1
      dsimp only at h2
      rcases hB : Disk.create w s1 sn.cowloop with ⟨r2, s2, d2, t2⟩
      rw [hB] at h2
      cases r2 with
      | error e2 =>
        dsimp only at h2
        injection h2 with h2e
        subst h2e
        unfold DeviceMapperSnapshot.create
        simp [hc, hA, hB]
      | ok u2 => simp at h2

/-- Witness for C2: under a failing device-mapper create command (and a
failing COW bind for the second part), at the concrete minimizer snapshot. -/
theorem C2_create_failure_witness :
    ((DeviceMapperSnapshot.create worldB sysA (minimizerSnapshot "/out/min.sq" "/img")).1 =
        .error (.snapshotError "Could not create snapshot device using dmsetup create imgcreate-42-7")
     ∧ (DeviceMapperSnapshot.create worldB sysA
          (minimizerSnapshot "/out/min.sq" "/img")).2.2.1.imgloop.device = none
     ∧ (DeviceMapperSnapshot.create worldB sysA
          (minimizerSnapshot "/out/min.sq" "/img")).2.2.1.cowloop.device = none
     ∧ (DeviceMapperSnapshot.create worldB sysA
          (minimizerSnapshot "/out/min.sq" "/img")).2.2.1.created = false)
    ∧ ((DeviceMapperSnapshot.create worldA sysA (minimizerSnapshot "/out/min.sq" "/img")).1 =
        .error (.mountError "Failed to allocate loop device for /out/osmin")
     ∧ (DeviceMapperSnapshot.create worldA sysA
          (minimizerSnapshot "/out/min.sq" "/img")).2.2.1.imgloop =
        (Disk.create worldA sysA (minimizerSnapshot "/out/min.sq" "/img").imgloop).2.2.1) :=
  ⟨C2_create_failure.1 worldB sysA (minimizerSnapshot "/out/min.sq" "/img") 1024 rfl
      (by decide) (by decide) (by decide)
      (by intro nm tb; show (1 : Int) ≠ 0; decide),
   C2_create_failure.2 worldA sysA (minimizerSnapshot "/out/min.sq" "/img")
      (.mountError "Failed to allocate loop device for /out/osmin") rfl
      (by decide) (by decide)⟩

/-! ## Claim C4 -/

/-- The claimed invariant: the `path` property is defined exactly when the
`created` flag is set. -/
def pathCreatedInv (sn : DeviceMapperSnapshot) : Prop :=
  (DeviceMapperSnapshot.get_path sn).isSome = sn.created

/-- Counterexample to claim C4 as stated: after a `create` that failed at the
device-mapper command, the generated name is retained while `created` is
false, so `path` is non-None with `created` false. -/
theorem C4_counterexample :
    (DeviceMapperSnapshot.create worldB sysA
        (minimizerSnapshot "/out/min.sq" "/img")).2.2.1.name = some "imgcreate-42-7"
    ∧ (DeviceMapperSnapshot.create worldB sysA
        (minimizerSnapshot "/out/min.sq" "/img")).2.2.1.created = false
    ∧ ¬ pathCreatedInv (DeviceMapperSnapshot.create worldB sysA
        (minimizerSnapshot "/out/min.sq" "/img")).2.2.1 := by
  unfold pathCreatedInv
  decide

/-- Claim C4 (corrected): the path/created invariant holds after
construction, after a successful `create()` from a fresh snapshot, and is
preserved by every `remove()` call (whatever its outcome); but it can be
violated by a failed `create()` — the device-mapper-failure path retains the
name with `created` false. -/
theorem C4_path_invariant :
    (∀ (img cow : Disk), pathCreatedInv (DeviceMapperSnapshot.init img cow))
  ∧ (∀ (w : World) (s : Sys) (sn : DeviceMapperSnapshot),
       sn.created = false →
       (DeviceMapperSnapshot.create w s sn).1 = .ok () →
       pathCreatedInv (DeviceMapperSnapshot.create w s sn).2.2.1)
  ∧ (∀ (w : World) (sn : DeviceMapperSnapshot) (ign : Bool),
       pathCreatedInv sn →
       pathCreatedInv (DeviceMapperSnapshot.remove w sn ign).2.1) := by
  refine ⟨?_, ?_, ?_⟩
  · intro img cow
    unfold pathCreatedInv DeviceMapperSnapshot.init DeviceMapperSnapshot.get_path
    simp
  · intro w s sn hc h
    rcases hE : DeviceMapperSnapshot.create w s sn with ⟨r1, s1, sn1, t1⟩
    rw [hE] at h
    cases r1 with
    | error e1 => simp at h
    | ok u1 =>
      cases u1
      obtain ⟨hcr, hnm⟩ := DMS_create_ok_inv w s sn s1 sn1 t1 hc hE
      unfold pathCreatedInv DeviceMapperSnapshot.get_path
      simp [hcr, hnm]
  · intro w sn ign hinv
    cases hc : sn.created with
    | false =>
      unfold DeviceMapperSnapshot.remove
      simp [hc, hinv]
    | true =>
      cases hn : sn.name with
      | none =>
        exfalso
        unfold pathCreatedInv DeviceMapperSnapshot.get_path at hinv
        rw [hn, hc] at hinv
        simp at hinv
      | some nm =>
        unfold DeviceMapperSnapshot.remove
        simp only [hc, hn, Bool.not_true, Bool.false_eq_true, if_false]
        split
        · exact hinv
        · unfold pathCreatedInv DeviceMapperSnapshot.get_path
          simp

/-- Witness for C4: the invariant after a successful concrete `create` and
its preservation through a concrete `remove`. -/
theorem C4_path_invariant_witness :
    pathCreatedInv (DeviceMapperSnapshot.create worldOk sysA
        (minimizerSnapshot "/out/min.sq" "/img")).2.2.1
    ∧ pathCreatedInv (DeviceMapperSnapshot.remove worldRmFail snapLive false).2.1 :=
  ⟨C4_path_invariant.2.1 worldOk sysA (minimizerSnapshot "/out/min.sq" "/img") rfl (by decide),
   C4_path_invariant.2.2 worldRmFail snapLive false (by unfold pathCreatedInv; decide)⟩

/-! ## Claim C1 -/

/-- Counterexample to claim C1 as stated: when binding the COW loop device
fails during `snapshot.create()` (after the image loop device was bound), the
`finally` removal is a no-op (`created` is still false), so the image loop
device remains allocated even though a step before the removal step failed —
no detach command ever appears in the trace. -/
theorem C1_counterexample :
    (create_image_minimizer worldA sysA "/out/min.sq" "/img" 512).1
        = .error (.mountError "Failed to allocate loop device for /out/osmin")
    ∧ (create_image_minimizer worldA sysA "/out/min.sq" "/img" 512).2.2.1.imgloop.device
        = some "/dev/loop0"
    ∧ Cmd.losetupDetach "/dev/loop0" ∉
        (create_image_minimizer worldA sysA "/out/min.sq" "/img" 512).2.2.2 := by
  decide

/-- Claim C1 (corrected): removal is attempted on every exit path with
failures ignored exactly when an exception is propagating; when the snapshot
was successfully created and the resize step then raises, the original error
propagates, removal runs (a removal command appears in the trace) and both
loop devices are released with the snapshot state cleared.  But when creating
the COW backing Disk fails after the image Disk was bound, the removal
no-ops and the image loop device stays allocated. -/
theorem C1_minimizer_cleanup (w : World) (s : Sys) (path image : String) (msz : Int) (e : Err)
    (hcr : (DeviceMapperSnapshot.create w s (minimizerSnapshot path image)).1 = .ok ())
    (hrs : (resize2fs w (DeviceMapperSnapshot.create w s (minimizerSnapshot path image)).2.1
              (optStr (DeviceMapperSnapshot.get_path
                 (DeviceMapperSnapshot.create w s (minimizerSnapshot path image)).2.2.1))
              (some msz) false).1 = .error e) :
    (create_image_minimizer w s path image msz).1 = .error e
    ∧ (create_image_minimizer w s path image msz).2.2.1.created = false
    ∧ (create_image_minimizer w s path image msz).2.2.1.name = none
    ∧ (create_image_minimizer w s path image msz).2.2.1.imgloop.device = none
    ∧ (create_image_minimizer w s path image msz).2.2.1.cowloop.device = none
    ∧ Cmd.dmsetupRemove (mkSnapName w) ∈ (create_image_minimizer w s path image msz).2.2.2 := by
  rcases hE : DeviceMapperSnapshot.create w s (minimizerSnapshot path image)
    with ⟨r1, s1, sn1, t1⟩
  rw [hE] at hcr hrs
  cases r1 with
  | error e1 => simp at hcr
  | ok u1 =>
    cases u1
    dsimp only at hrs
    obtain ⟨hcreated, hname⟩ := DMS_create_ok_inv w s _ s1 sn1 t1 rfl hE
    rcases hR : resize2fs w s1 (optStr (DeviceMapperSnapshot.get_path sn1)) (some msz) false
      with ⟨r2, s2, t2⟩
    rw [hR] at hrs
    cases r2 with
    | ok v => simp at hrs
    | error e2 =>
      dsimp only at hrs
      injection hrs with hrs2
      subst hrs2
      have hrem := remove_ignore_spec w sn1 (mkSnapName w) hcreated hname
      unfold create_image_minimizer minimizerFinallyFail
      dsimp only
      rw [hE]
      dsimp only
      rw [hR]
      dsimp only
      rw [hrem]
      refine ⟨rfl, rfl, rfl, Disk.cleanup_device sn1.imgloop, Disk.cleanup_device sn1.cowloop, ?_⟩
      simp

/-- Witness for C1: a concrete run in which the snapshot is created, the
post-resize filesystem check fails, the resulting creator error propagates,
and all devices end up released. -/
theorem C1_minimizer_cleanup_witness :
    (create_image_minimizer worldC sysA "/out/min.sq" "/img" 512).1
        = .error (.creatorError "fsck after resize returned an error!  image to debug at /tmp/resize-image-t")
    ∧ (create_image_minimizer worldC sysA "/out/min.sq" "/img" 512).2.2.1.created = false
    ∧ (create_image_minimizer worldC sysA "/out/min.sq" "/img" 512).2.2.1.name = none
    ∧ (create_image_minimizer worldC sysA "/out/min.sq" "/img" 512).2.2.1.imgloop.device = none
    ∧ (create_image_minimizer worldC sysA "/out/min.sq" "/img" 512).2.2.1.cowloop.device = none
    ∧ Cmd.dmsetupRemove (mkSnapName worldC) ∈
        (create_image_minimizer worldC sysA "/out/min.sq" "/img" 512).2.2.2 :=
  C1_minimizer_cleanup worldC sysA "/out/min.sq" "/img" 512
    (.creatorError "fsck after resize returned an error!  image to debug at /tmp/resize-image-t")
    (by decide) (by decide)

/-! ## Claim C5 -/

/-- A sparse Disk bound to a loop device whose backing file is 1000 bytes
long while the declared size is 2048. -/
def disk5 : Disk :=
  { lofile := "/sp.img", declSize := some 2048, device := some "/dev/loop0",
    sparse := true, fixedDev := false }

/-- An ext-aware mount that is already mounted. -/
def mnt5 : ExtDiskMount :=
  { base := { disk := disk5, mountdir := "/mnt/x", fstype := some "ext3",
              rmmountdir := true, mounted := true, rmdir := false },
    blocksize := 1024, fslabel := "lbl" }

def sys5 : Sys :=
  { files := fun x => if x = "/sp.img" then some 1000 else none, dirs := fun _ => true }

/-- Counterexample to claim C5 as stated: a second `ExtDiskMount.mount` while
already mounted is not a no-op — it re-runs the create/resize step and
invokes external commands (a filesystem check among them). -/
theorem C5_counterexample :
    mnt5.base.mounted = true
    ∧ (ExtDiskMount.mount worldOk sys5 mnt5).1 = .ok ()
    ∧ (ExtDiskMount.mount worldOk sys5 mnt5).2.2.2 ≠ []
    ∧ Cmd.e2fsckCmd "/sp.img" ∈ (ExtDiskMount.mount worldOk sys5 mnt5).2.2.2 := by
  decide

/-- Claim C5 (corrected): `BindChrootMount` and `DiskMount` have idempotent
`mount`/`unmount` (a second mount while mounted, or an unmount while not
mounted, runs no external command; the latter may still drop an owned mount
directory), and `cleanup` leaves the object unmounted whenever it was not
mounted or the unmount command succeeds; `ExtDiskMount.mount`, however, has
no mounted-guard and re-runs its create/resize step. -/
theorem C5_mount_idempotence :
    (∀ (w : World) (s : Sys) (m : BindChrootMount), m.mounted = true →
       BindChrootMount.mount w s m = (.ok (), s, m, []))
  ∧ (∀ (w : World) (m : BindChrootMount), m.mounted = false →
       BindChrootMount.unmount w m = (.ok (), m, []))
  ∧ (∀ (w : World) (s : Sys) (m : DiskMount), m.mounted = true →
       DiskMount.mount w s m = (.ok (), s, m, []))
  ∧ (∀ (w : World) (s : Sys) (m : DiskMount), m.mounted = false →
       (DiskMount.unmount w s m).1 = .ok ()
       ∧ (DiskMount.unmount w s m).2.2.1.mounted = false
       ∧ (DiskMount.unmount w s m).2.2.1.disk = m.disk
       ∧ (DiskMount.unmount w s m).2.2.2 = [])
  ∧ (∀ (w : World) (s : Sys) (m : DiskMount),
       m.mounted = false ∨ w.exitCode (Cmd.umount m.mountdir) = 0 →
       (DiskMount.cleanup w s m).1 = .ok ()
       ∧ (DiskMount.cleanup w s m).2.2.1.mounted = false) := by
  refine ⟨?_, ?_, ?_, ?_, ?_⟩
  · intro w s m hm
    unfold BindChrootMount.mount
    simp [hm]
  · intro w m hm
    unfold BindChrootMount.unmount
    simp [hm]
  · intro w s m hm
    unfold DiskMount.mount
    simp [hm]
  · intro w s m hm
    unfold DiskMount.unmount DiskMount.rmdirStep
    cases hr : m.rmdir <;> simp [hm, hr]
  · intro w s m h
    rcases h with hm | h0
    · unfold DiskMount.cleanup DiskMount.unmount DiskMount.rmdirStep
      cases hr : m.rmdir <;> simp [hm, hr]
    · unfold DiskMount.cleanup DiskMount.unmount DiskMount.rmdirStep
      cases hm : m.mounted <;> cases hr : m.rmdir <;> simp [hm, hr, h0]

/-- A bind mount that is already mounted. -/
def bnd5 : BindChrootMount :=
  { src := "/src", root := "/chroot", dest := "/chroot/src", mounted := true }

/-- A disk mount that is not mounted. -/
def mnt5unmounted : DiskMount := { mnt5.base with mounted := false }

/-- Witness for C5 at concrete mounts: second bind/disk mount while mounted,
unmount while not mounted, and cleanup. -/
theorem C5_mount_idempotence_witness :
    BindChrootMount.mount worldOk sysA bnd5 = (.ok (), sysA, bnd5, [])
    ∧ DiskMount.mount worldOk sysA mnt5.base = (.ok (), sysA, mnt5.base, [])
    ∧ ((DiskMount.unmount worldOk sysA mnt5unmounted).1 = .ok ()
       ∧ (DiskMount.unmount worldOk sysA mnt5unmounted).2.2.1.mounted = false
       ∧ (DiskMount.unmount worldOk sysA mnt5unmounted).2.2.1.disk = mnt5unmounted.disk
       ∧ (DiskMount.unmount worldOk sysA mnt5unmounted).2.2.2 = [])
    ∧ ((DiskMount.cleanup worldOk sysA mnt5.base).1 = .ok ()
       ∧ (DiskMount.cleanup worldOk sysA mnt5.base).2.2.1.mounted = false) :=
  ⟨C5_mount_idempotence.1 worldOk sysA bnd5 rfl,
   C5_mount_idempotence.2.2.1 worldOk sysA mnt5.base rfl,
   C5_mount_idempotence.2.2.2.1 worldOk sysA mnt5unmounted rfl,
   C5_mount_idempotence.2.2.2.2 worldOk sysA mnt5.base (Or.inr (by decide))⟩

/-! ## Claim C6 -/

/-- A successful `truncate(size)` emits exactly the truncation event and sets
the backing file to that size. -/
theorem Disk.truncate_ok_inv (s : Sys) (d : Disk) (z : Int) (s' : Sys) (t : Trace)
    (h : Disk.truncate s d (some z) = (.ok (), s', t)) :
    t = [Cmd.evtTruncate d.lofile z] ∧ s' = setFile s d.lofile z := by
  unfold Disk.truncate at h
  dsimp only at h
  split at h
  · simp at h
  · split at h
    · simp at h
    · simp only [Prod.mk.injEq] at h
      obtain ⟨-, h1, h2⟩ := h
      exact ⟨h2.symm, h1.symm⟩

/-- `expand(create, None)` on an existing backing file with a declared size:
writes one byte at the declared offset, growing the file to
`max old (dsz + 1)`. -/
theorem Disk.expand_existing (s : Sys) (d : Disk) (create : Bool) (dsz old : Int)
    (hds : d.declSize = some dsz) (hf : s.files d.lofile = some old) (hnn : 0 ≤ dsz) :
    Disk.expand s d create none =
      (.ok (), setFile (if create then setDir s (dirname d.lofile) true else s)
         d.lofile (max old (dsz + 1)),
       [Cmd.evtExpand d.lofile dsz]) := by
  unfold Disk.expand
  have hlt : ¬ dsz < 0 := not_lt.mpr hnn
  cases create <;> simp [hds, hf, setDir, hlt]

/-- The resize tool is always invoked (with the `sizeK` argument) on the
non-minimal `resize2fs` path, whatever its exit code. -/
theorem resize2fs_invokes (w : World) (s : Sys) (fs : String) (n : Int) :
    Cmd.resizeCmd fs (sizeK n) ∈ (resize2fs w s fs (some n) false).2.2 := by
  unfold resize2fs
  simp only [e2fsck]
  repeat' split
  all_goals simp_all

/-- The four-byte pieces of `resize_filesystem` with no explicit size: when
the file length differs from the declared size, the external resize toward
the declared size is always invoked. -/
theorem resize_filesystem_targets_declared (w : World) (s : Sys) (m : ExtDiskMount)
    (cur dsz : Int)
    (hf : s.files m.base.disk.lofile = some cur)
    (hds : m.base.disk.declSize = some dsz)
    (hne : dsz ≠ cur) (hnn : 0 ≤ dsz) :
    Cmd.resizeCmd m.base.disk.lofile (sizeK dsz) ∈
      (ExtDiskMount.resize_filesystem w s m none).2.2 := by
  unfold ExtDiskMount.resize_filesystem
  rw [hf]
  dsimp only
  rw [hds]
  have hne2 : ¬ ((some dsz : Option Int) = some cur) := by simpa using hne
  rw [if_neg hne2]
  by_cases hgt : pyGtOpt (some dsz) cur = true
  · rw [if_pos hgt]
    dsimp only
    rw [Disk.expand_existing s m.base.disk _ dsz cur hds hf hnn]
    dsimp only
    rcases hR : resize2fs w
        (setFile (if decide (dsz ≠ 0) then setDir s (dirname m.base.disk.lofile) true else s)
          m.base.disk.lofile (max cur (dsz + 1)))
        m.base.disk.lofile (some dsz) false with ⟨r2, s2, t2⟩
    have hmem := resize2fs_invokes w
        (setFile (if decide (dsz ≠ 0) then setDir s (dirname m.base.disk.lofile) true else s)
          m.base.disk.lofile (max cur (dsz + 1)))
        m.base.disk.lofile dsz
    rw [hR] at hmem
    dsimp only at hmem
    cases r2 <;> simp [hmem]
  · rw [if_neg hgt]
    dsimp only
    rcases hR : resize2fs w s m.base.disk.lofile (some dsz) false with ⟨r2, s2, t2⟩
    have hmem := resize2fs_invokes w s m.base.disk.lofile dsz
    rw [hR] at hmem
    dsimp only at hmem
    cases r2 <;> simp [hmem]

/-- All tools succeed and the filesystem header reports two 1024-byte
blocks. -/
def world6 : World :=
  { worldOk with output := fun c => match c with
      | Cmd.dumpe2fsCmd _ => "Block count: 2"
      | _ => "" }

/-- A mounted ext-aware mount over a bound sparse Disk with declared size
4096 and a 4096-byte backing file. -/
def disk6 : Disk :=
  { lofile := "/sp.img", declSize := some 4096, device := some "/dev/loop0",
    sparse := true, fixedDev := false }

def mnt6 : ExtDiskMount :=
  { base := { disk := disk6, mountdir := "/mnt/x", fstype := some "ext3",
              rmmountdir := true, mounted := true, rmdir := false },
    blocksize := 1024, fslabel := "lbl" }

def sys6 : Sys :=
  { files := fun x => if x = "/sp.img" then some 4096 else none, dirs := fun _ => true }

/-- Counterexample to claim C6 as stated: with `size` unset and a minimal
size of 2048 against a declared Disk size of 4096, `resparse` does not leave
the filesystem at the minimal size — after truncating it invokes the resize
tool toward the declared size (argument `4K`), and never toward the minimal
one. -/
theorem C6_counterexample :
    (ExtDiskMount.resparse world6 sys6 mnt6 none).1 = .ok 2048
    ∧ Cmd.resizeCmd "/sp.img" "4K" ∈ (ExtDiskMount.resparse world6 sys6 mnt6 none).2.2.2
    ∧ Cmd.resizeCmd "/sp.img" "2K" ∉ (ExtDiskMount.resparse world6 sys6 mnt6 none).2.2.2 := by
  decide

/-- Claim C6 (corrected): `resparse(size)` performs, in order, `cleanup`, a
minimal filesystem resize (with the size read back from the filesystem
header), truncation of the backing file to the minimal byte count, and a
filesystem resize toward `size` — where an unset `size` defaults to the
Disk's *declared* size, not the minimal one — and returns the minimal size
achieved. -/
theorem C6_resparse_sequence :
    (∀ (w : World) (s : Sys) (m : ExtDiskMount) (size : Option Int) (minsize r4 : Int),
       (DiskMount.cleanup w s m.base).1 = .ok () →
       (ExtDiskMount.resize_to_minimal w (DiskMount.cleanup w s m.base).2.1
          { m with base := (DiskMount.cleanup w s m.base).2.2.1 }).1 = .ok minsize →
       (Disk.truncate
          (ExtDiskMount.resize_to_minimal w (DiskMount.cleanup w s m.base).2.1
             { m with base := (DiskMount.cleanup w s m.base).2.2.1 }).2.1
          (DiskMount.cleanup w s m.base).2.2.1.disk (some minsize)).1 = .ok () →
       (ExtDiskMount.resize_filesystem w
          (Disk.truncate
             (ExtDiskMount.resize_to_minimal w (DiskMount.cleanup w s m.base).2.1
                { m with base := (DiskMount.cleanup w s m.base).2.2.1 }).2.1
             (DiskMount.cleanup w s m.base).2.2.1.disk (some minsize)).2.1
          { m with base := (DiskMount.cleanup w s m.base).2.2.1 } size).1 = .ok (some r4) →
       (ExtDiskMount.resparse w s m size).1 = .ok minsize
       ∧ (ExtDiskMount.resparse w s m size).2.2.2 =
           (DiskMount.cleanup w s m.base).2.2.2
           ++ (ExtDiskMount.resize_to_minimal w (DiskMount.cleanup w s m.base).2.1
                { m with base := (DiskMount.cleanup w s m.base).2.2.1 }).2.2
           ++ [Cmd.evtTruncate (DiskMount.cleanup w s m.base).2.2.1.disk.lofile minsize]
           ++ (ExtDiskMount.resize_filesystem w
                (Disk.truncate
                   (ExtDiskMount.resize_to_minimal w (DiskMount.cleanup w s m.base).2.1
                      { m with base := (DiskMount.cleanup w s m.base).2.2.1 }).2.1
                   (DiskMount.cleanup w s m.base).2.2.1.disk (some minsize)).2.1
                { m with base := (DiskMount.cleanup w s m.base).2.2.1 } size).2.2)
  ∧ (∀ (w : World) (s : Sys) (m : ExtDiskMount) (cur dsz : Int),
       s.files m.base.disk.lofile = some cur →
       m.base.disk.declSize = some dsz →
       dsz ≠ cur → 0 ≤ dsz →
       Cmd.resizeCmd m.base.disk.lofile (sizeK dsz) ∈
         (ExtDiskMount.resize_filesystem w s m none).2.2) := by
  constructor
  · intro w s m size minsize r4 h1 h2 h3 h4
    rcases hA : DiskMount.cleanup w s m.base with ⟨r1, s1, b1, t1⟩
    rw [hA] at h1 h2 h3 h4
    cases r1 with
    | error e1 => simp at h1
    | ok u1 =>
      cases u1
      dsimp only at h2 h3 h4
      rcases hB : ExtDiskMount.resize_to_minimal w s1 { m with base := b1 } with ⟨r2, s2, t2⟩
      rw [hB] at h2 h3 h4
      cases r2 with
      | error e2 => simp at h2
      | ok mins =>
        dsimp only at h2 h3 h4
        injection h2 with h2e
        rw [h2e] at hB
        rcases hC : Disk.truncate s2 b1.disk (some minsize) with ⟨r3, s3, t3⟩
        rw [hC] at h3 h4
        cases r3 with
        | error e3 => simp at h3
        | ok u3 =>
          cases u3
          dsimp only at h4
          obtain ⟨ht3, -⟩ := Disk.truncate_ok_inv s2 b1.disk minsize s3 t3 hC
          rcases hD : ExtDiskMount.resize_filesystem w s3 { m with base := b1 } size
            with ⟨r4x, s4, t4⟩
          rw [hD] at h4
          cases r4x with
          | error e4 => simp at h4
          | ok v4 =>
            unfold ExtDiskMount.resparse
            rw [hA]
            dsimp only
            rw [hB]
            dsimp only
            rw [hC]
            dsimp only
            rw [hD]
            dsimp only
            exact ⟨rfl, by rw [ht3]⟩
  · intro w s m cur dsz hf hds hne hnn
    exact resize_filesystem_targets_declared w s m cur dsz hf hds hne hnn

/-- Witness for C6: the concrete resparse run (declared size 4096, minimal
size 2048) through the structure part, and the declared-size targeting at
the same inputs. -/
theorem C6_resparse_sequence_witness :
    ((ExtDiskMount.resparse world6 sys6 mnt6 none).1 = .ok 2048
     ∧ (ExtDiskMount.resparse world6 sys6 mnt6 none).2.2.2 =
         (DiskMount.cleanup world6 sys6 mnt6.base).2.2.2
         ++ (ExtDiskMount.resize_to_minimal world6 (DiskMount.cleanup world6 sys6 mnt6.base).2.1
              { mnt6 with base := (DiskMount.cleanup world6 sys6 mnt6.base).2.2.1 }).2.2
         ++ [Cmd.evtTruncate (DiskMount.cleanup world6 sys6 mnt6.base).2.2.1.disk.lofile 2048]
         ++ (ExtDiskMount.resize_filesystem world6
              (Disk.truncate
                 (ExtDiskMount.resize_to_minimal world6
                    (DiskMount.cleanup world6 sys6 mnt6.base).2.1
                    { mnt6 with base := (DiskMount.cleanup world6 sys6 mnt6.base).2.2.1 }).2.1
                 (DiskMount.cleanup world6 sys6 mnt6.base).2.2.1.disk (some 2048)).2.1
              { mnt6 with base := (DiskMount.cleanup world6 sys6 mnt6.base).2.2.1 } none).2.2)
    ∧ Cmd.resizeCmd "/sp.img" (sizeK 4096) ∈
        (ExtDiskMount.resize_filesystem world6 sys5 mnt6 none).2.2 :=
  ⟨C6_resparse_sequence.1 world6 sys6 mnt6 none 2048 4096
      (by decide) (by decide) (by decide) (by decide),
   C6_resparse_sequence.2 world6 sys5 mnt6 1000 4096 (by decide) (by decide)
      (by decide) (by decide)⟩

end Imgcreate
